import Mathlib

set_option maxHeartbeats 1000000

/-!
Verification of the FastMCP browser client (`src/services/FastMCPClient.ts`):
token lifecycle (`initializeAuth`, `clearAuth`, `close`) and the
transport/response-normalization logic (`callTool`, `search`,
`testConnection`).  The embedding models JavaScript runtime values and the
exact branch structure of the TypeScript source.
-/

/-- JSON values as delivered by the HTTP layer and produced by `JSON.parse`.
Numeric literals are modelled as integers; no claim under verification
evaluates a fractional number. -/
inductive Json where
  | null : Json
  | bool (b : Bool) : Json
  | num (n : Int) : Json
  | str (s : String) : Json
  | arr (xs : List Json) : Json
  | obj (fields : List (String × Json)) : Json

/-- JavaScript truthiness of a value: `null`, `false`, `0` and `""` are falsy;
every object and array is truthy. -/
def jsTruthy : Json → Bool
  | Json.null => false
  | Json.bool b => b
  | Json.num n => n != 0
  | Json.str s => s != ""
  | Json.arr _ => true
  | Json.obj _ => true

/-- Key lookup in an object's field list (`JSON.parse` produces unique keys,
so the first binding is the binding). -/
def lookupEntryJson : List (String × Json) → String → Option Json
  | [], _ => none
  | (k', v) :: rest, k => if k' = k then some v else lookupEntryJson rest k

/-- Property read `v.k` on a JavaScript value: a lookup on objects, `undefined`
(here `none`) on every other non-null value.  Reads on `null` receivers throw
and are modelled separately at each access site. -/
def jsGet : Json → String → Option Json
  | Json.obj fields, k => lookupEntryJson fields k
  | _, _ => none

/-- Truthiness of a possibly-`undefined` JavaScript value (`undefined` is falsy). -/
def truthyOpt : Option Json → Bool
  | none => false
  | some v => jsTruthy v

/-- `Array.isArray`. -/
def isArrJson : Json → Bool
  | Json.arr _ => true
  | _ => false

def isArrOpt : Option Json → Bool
  | none => false
  | some v => isArrJson v

/-- `typeof v === 'object'` — true for objects, arrays and `null`. -/
def isObjectType : Json → Bool
  | Json.obj _ => true
  | Json.arr _ => true
  | Json.null => true
  | _ => false

/-- The `.length` property: defined for strings and arrays, `undefined`
(`none`) otherwise. -/
def jsLength : Json → Option Int
  | Json.str s => some (s.length : Int)
  | Json.arr xs => some (xs.length : Int)
  | _ => none

/-! ## A model of `JSON.parse`

A fuel-indexed recursive-descent parser over the character list of the input
string, accepting the JSON fragment the client exchanges: `null`, booleans,
integer numerals, strings with the common backslash escapes, arrays and
objects.  The fuel is sized generously from the input length, so it never runs
out on inputs the parser otherwise accepts. -/

/-- JSON insignificant whitespace (space, tab, line feed, carriage return). -/
def isWsChar : Char → Bool
  | ' ' => true
  | '\t' => true
  | '\n' => true
  | '\r' => true
  | _ => false

def skipWs : List Char → List Char
  | [] => []
  | c :: cs => if isWsChar c then skipWs cs else c :: cs

/-- Decode one backslash escape inside a JSON string literal: quote, backslash
and slash escape to themselves, the letters n, t, r, b, f to their control
characters. -/
def escChar (e : Char) : Option Char :=
  match e with
  | 'n' => some (Char.ofNat 10)
  | 't' => some (Char.ofNat 9)
  | 'r' => some (Char.ofNat 13)
  | 'b' => some (Char.ofNat 8)
  | 'f' => some (Char.ofNat 12)
  | _ => if e = '"' ∨ e = '\\' ∨ e = '/' then some e else none

/-- Parse the body of a JSON string literal (after the opening quote),
returning the decoded characters and the remainder after the closing quote. -/
def parseStrChars : List Char → Option (List Char × List Char)
  | [] => none
  | '"' :: rest => some ([], rest)
  | '\\' :: e :: rest =>
    match escChar e with
    | none => none
    | some c =>
      match parseStrChars rest with
      | none => none
      | some (s, r) => some (c :: s, r)
  | c :: rest =>
    match parseStrChars rest with
    | none => none
    | some (s, r) => some (c :: s, r)

def digitVal? (c : Char) : Option Nat :=
  if c == '0' then some 0 else if c == '1' then some 1
  else if c == '2' then some 2 else if c == '3' then some 3
  else if c == '4' then some 4 else if c == '5' then some 5
  else if c == '6' then some 6 else if c == '7' then some 7
  else if c == '8' then some 8 else if c == '9' then some 9
  else none

def parseDigitsAux : List Char → Nat → (Nat × List Char)
  | [], acc => (acc, [])
  | c :: cs, acc =>
    match digitVal? c with
    | some d => parseDigitsAux cs (acc * 10 + d)
    | none => (acc, c :: cs)

/-- Parse a non-empty leading run of decimal digits. -/
def parseDigits : List Char → Option (Nat × List Char)
  | [] => none
  | c :: cs =>
    match digitVal? c with
    | some d => some (parseDigitsAux cs d)
    | none => none

mutual

def parseJsonV : Nat → List Char → Option (Json × List Char)
  | 0, _ => none
  | fuel + 1, cs0 =>
    match skipWs cs0 with
    | 'n' :: 'u' :: 'l' :: 'l' :: rest => some (Json.null, rest)
    | 't' :: 'r' :: 'u' :: 'e' :: rest => some (Json.bool true, rest)
    | 'f' :: 'a' :: 'l' :: 's' :: 'e' :: rest => some (Json.bool false, rest)
    | '"' :: rest =>
      match parseStrChars rest with
      | none => none
      | some (s, r) => some (Json.str (String.mk s), r)
    | '[' :: rest =>
      (match skipWs rest with
       | ']' :: r2 => some (Json.arr [], r2)
       | _ =>
         match parseArrItems fuel rest with
         | none => none
         | some (xs, r2) => some (Json.arr xs, r2))
    | '{' :: rest =>
      (match skipWs rest with
       | '}' :: r2 => some (Json.obj [], r2)
       | _ =>
         match parseObjItems fuel rest with
         | none => none
         | some (fs, r2) => some (Json.obj fs, r2))
    | '-' :: rest =>
      (match parseDigits rest with
       | none => none
       | some (n, r2) => some (Json.num (-(n : Int)), r2))
    | cs =>
      match parseDigits cs with
      | none => none
      | some (n, r2) => some (Json.num (n : Int), r2)

/-- Parse one or more comma-separated array items followed by `]`. -/
def parseArrItems : Nat → List Char → Option (List Json × List Char)
  | 0, _ => none
  | fuel + 1, cs =>
    match parseJsonV fuel cs with
    | none => none
    | some (v, rest) =>
      match skipWs rest with
      | ',' :: r2 =>
        (match parseArrItems fuel r2 with
         | none => none
         | some (xs, r3) => some (v :: xs, r3))
      | ']' :: r2 => some ([v], r2)
      | _ => none

/-- Parse one or more comma-separated `"key": value` pairs followed by `}`. -/
def parseObjItems : Nat → List Char → Option (List (String × Json) × List Char)
  | 0, _ => none
  | fuel + 1, cs =>
    match skipWs cs with
    | '"' :: rest =>
      (match parseStrChars rest with
       | none => none
       | some (k, r1) =>
         match skipWs r1 with
         | ':' :: r2 =>
           (match parseJsonV fuel r2 with
            | none => none
            | some (v, r3) =>
              match skipWs r3 with
              | ',' :: r4 =>
                (match parseObjItems fuel r4 with
                 | none => none
                 | some (fs, r5) => some ((String.mk k, v) :: fs, r5))
              | '}' :: r4 => some ([(String.mk k, v)], r4)
              | _ => none)
         | _ => none)
    | _ => none

end

/-- Model of `JSON.parse`: `none` models a thrown `SyntaxError`. -/
def jsonParse (s : String) : Option Json :=
  match parseJsonV (4 * s.length + 16) s.data with
  | none => none
  | some (j, rest) => if skipWs rest = [] then some j else none

/-! ## Models of the remaining JavaScript primitives the client uses -/

/-- Leading digits of `parseInt`: `none` when the first character is not a
digit (`parseInt` then evaluates to `NaN`). -/
def parseIntDigits : List Char → Option Nat
  | [] => none
  | c :: cs =>
    match digitVal? c with
    | some d => some (parseDigitsAux cs d).1
    | none => none

/-- Model of JavaScript `parseInt(s)` (radix 10): skip leading whitespace,
optional sign, then the longest digit run; `none` models `NaN`. -/
def parseIntJS (s : String) : Option Int :=
  match skipWs s.data with
  | '-' :: rest => (parseIntDigits rest).map (fun n => -(n : Int))
  | '+' :: rest => (parseIntDigits rest).map (fun n => (n : Int))
  | cs => (parseIntDigits cs).map (fun n => (n : Int))

def digitChar : Nat → Char
  | 0 => '0' | 1 => '1' | 2 => '2' | 3 => '3' | 4 => '4'
  | 5 => '5' | 6 => '6' | 7 => '7' | 8 => '8' | _ => '9'

/-- Big-endian decimal digits of `n`, driven by a fuel bound on the digit
count (any value a JavaScript number can hold fits in far fewer than 40
digits). -/
def natDigitsAux : Nat → Nat → List Char
  | 0, _ => []
  | fuel + 1, n => if n = 0 then [] else natDigitsAux fuel (n / 10) ++ [digitChar (n % 10)]

def natToString (n : Nat) : String :=
  if n = 0 then "0" else String.mk (natDigitsAux 40 n)

/-- Model of JavaScript `Number.prototype.toString` on integer values. -/
def intToString : Int → String
  | Int.ofNat n => natToString n
  | Int.negSucc n => "-" ++ natToString (n + 1)

def dropWsLead : List Char → List Char
  | [] => []
  | c :: cs => if isWsChar c then dropWsLead cs else c :: cs

/-- Model of JavaScript `String.prototype.trim`. -/
def trimJS (s : String) : String :=
  String.mk (List.reverse (dropWsLead (List.reverse (dropWsLead s.data))))

/-! ## Persistent storage (`localStorage`) and the client's auth state -/

/-- The first binding of key `k`, as `localStorage.getItem` (keys are unique
in real storage; `setEntry` below preserves that). -/
def lookupEntry : List (String × String) → String → Option String
  | [], _ => none
  | (k', v) :: rest, k => if k' = k then some v else lookupEntry rest k

/-- `localStorage.setItem`: overwrite the existing binding or append. -/
def setEntry : List (String × String) → String → String → List (String × String)
  | [], k, v => [(k, v)]
  | (k', v') :: rest, k, v =>
    if k' = k then (k, v) :: rest else (k', v') :: setEntry rest k v

/-- `localStorage.removeItem`. -/
def removeEntry : List (String × String) → String → List (String × String)
  | [], _ => []
  | (k', v') :: rest, k =>
    if k' = k then removeEntry rest k else (k', v') :: removeEntry rest k

/-- Browser-local persistent storage: the client uses exactly two keys,
`fastmcp_access_token` and `fastmcp_token_expiry`. -/
structure Storage where
  entries : List (String × String)
  deriving DecidableEq

def Storage.getItem (st : Storage) (k : String) : Option String :=
  lookupEntry st.entries k

def Storage.setItem (st : Storage) (k v : String) : Storage :=
  ⟨setEntry st.entries k v⟩

def Storage.removeItem (st : Storage) (k : String) : Storage :=
  ⟨removeEntry st.entries k⟩

/-- The mutable state of a `FastMCPClient`: the in-memory bearer token
(`accessToken` field, `null` initially) and the browser storage it reads and
writes. -/
structure AuthState where
  accessToken : Option String
  storage : Storage
  deriving DecidableEq

/-- Truthiness of `this.accessToken` (a `string | null`): non-null and
non-empty. -/
def truthyStrOpt : Option String → Bool
  | none => false
  | some s => s != ""

/-- The guard of `initializeAuth`'s stored-token fast path:
`storedToken && tokenExpiry && new Date().getTime() < parseInt(tokenExpiry)`. -/
def authFastPath (st : AuthState) (now : Int) : Bool :=
  let storedToken := st.storage.getItem ("fastmcp_access_token")
  let tokenExpiry := st.storage.getItem ("fastmcp_token_expiry")
  truthyStrOpt storedToken && truthyStrOpt tokenExpiry &&
    (match tokenExpiry with
     | some s =>
       match parseIntJS s with
       | some e => decide (now < e)
       | none => false
     | none => false)

/-- Errors the modelled client can raise; each constructor corresponds to one
`throw` site of the source.  The source raises plain `Error` values whose
message prefix identifies the kind; the outer catch of `callTool` (and the
catch of `initializeAuth`) re-throw with an additional message prefix but
preserve the embedded content, so they are modelled as the identity on the
error value. -/
inductive CallError where
  /-- `'OAuth token is required to access FastMCP'` — the spec's `AuthRequired`. -/
  | authRequired : CallError
  /-- `'JSON-RPC Error: <message> (Code: <code>)'` — the spec's
  `RemoteToolError`; carries the JSON-RPC `error` envelope value. -/
  | remoteToolError (err : Json) : CallError
  /-- `'No data line found in SSE response'` — the spec's `MalformedResponse`. -/
  | noDataLine : CallError
  /-- A `JSON.parse` `SyntaxError`. -/
  | jsonParseError : CallError
  /-- A `TypeError` from a property access or `in` test on `null`/a primitive. -/
  | typeError : CallError
  /-- `'Failed to parse SSE response: <inner>'` — the catch wrapping the whole
  SSE-data processing block, which captures any error raised inside it. -/
  | sseParseFailure (inner : CallError) : CallError

/-- `FastMCPClient.initializeAuth` (lines 70–107).  Interaction is explicit:
`now` is `new Date().getTime()` and `promptResult` the value `prompt(...)`
would return (`none` = dismissed).  The catch block re-throws with a
`'Failed to initialize OAuth authentication: '` prefix, preserving the kind. -/
def initializeAuth (st : AuthState) (now : Int) (promptResult : Option String) :
    Except CallError AuthState :=
  if authFastPath st now then
    Except.ok { st with accessToken := st.storage.getItem ("fastmcp_access_token") }
  else
    match promptResult with
    | none => Except.error CallError.authRequired
    | some userToken =>
      if trimJS userToken = "" then Except.error CallError.authRequired
      else
        Except.ok
          { accessToken := some (trimJS userToken)
            storage :=
              (st.storage.setItem ("fastmcp_access_token") (trimJS userToken)).setItem
                ("fastmcp_token_expiry") (intToString (now + 3600000)) }

/-- `FastMCPClient.clearAuth` (lines 328–333). -/
def clearAuth (st : AuthState) : AuthState :=
  { accessToken := none
    storage :=
      (st.storage.removeItem ("fastmcp_access_token")).removeItem
        ("fastmcp_token_expiry") }

/-- `FastMCPClient.close` (lines 335–338): resets only the in-memory token. -/
def close (st : AuthState) : AuthState :=
  { st with accessToken := none }

/-- The auth gate at the top of `callTool` (lines 110–112):
`if (!this.accessToken) { await this.initializeAuth(); }` — runs before the
HTTP request is sent. -/
def callToolEnsureAuth (st : AuthState) (now : Int) (promptResult : Option String) :
    Except CallError AuthState :=
  if truthyStrOpt st.accessToken then Except.ok st
  else initializeAuth st now promptResult

/-! ## Transport and response normalization (`callTool`, lines 109–232)

The HTTP exchange itself is external: the server's answer enters the model as
a `ResponseData` value, a string body or an already-parsed structured body
(axios parses JSON bodies, so a structured body is never a string value). -/

/-- A 2xx response body as axios delivers it to `callTool`. -/
inductive ResponseData where
  | text (s : String) : ResponseData
  | structured (j : Json) : ResponseData

/-- `response.data.split('\n')`, on character lists. -/
def splitNl : List Char → List (List Char)
  | [] => [[]]
  | c :: rest =>
    if c = '\n' then [] :: splitNl rest
    else
      match splitNl rest with
      | [] => [[c]]
      | l :: ls => (c :: l) :: ls

/-- `line.startsWith('data: ')` combined with `line.substring(6)`: the line's
remainder after a literal `data: ` head, if present. -/
def dataLineOf : List Char → Option (List Char)
  | 'd' :: 'a' :: 't' :: 'a' :: ':' :: ' ' :: rest => some rest
  | _ => none

/-- The scan loop of lines 144–151: `dataLine` keeps the remainder of the
first matching line and the loop breaks; with no match it stays `''`. -/
def findDataLine : List (List Char) → List Char
  | [] => []
  | l :: rest =>
    match dataLineOf l with
    | some remainderChars => remainderChars
    | none => findDataLine rest

/-- Line 178: `return parsedSSE.result as SearchResponse || parsedSSE`. -/
def sseFallback (parsedSSE : Json) : Json :=
  match jsGet parsedSSE ("result") with
  | some r => if jsTruthy r then r else parsedSSE
  | none => parsedSSE

/-- `JSON.parse(firstContent.text)` where `text` is an arbitrary truthy value:
JavaScript coerces the argument to a string first.  Coerced numbers and
booleans re-parse to themselves; coerced arrays and objects do not parse. -/
def coerceParse : Json → Option Json
  | Json.str s => jsonParse s
  | Json.num n => some (Json.num n)
  | Json.bool b => some (Json.bool b)
  | _ => none

/-- Lines 163–178: the body after the error check — unwrap a double-encoded
`result.content[0].text` payload, else fall back to `result || parsedSSE`. -/
def sseResult (parsedSSE : Json) : Except CallError Json :=
  match jsGet parsedSSE ("result") with
  | some res =>
    if jsTruthy res then
      match jsGet res ("content") with
      | some contentArray =>
        if jsTruthy contentArray then
          match contentArray with
          | Json.arr (firstContent :: _) =>
            (match firstContent with
             | Json.null => Except.error CallError.typeError
             | _ =>
               match jsGet firstContent ("text") with
               | some t =>
                 if jsTruthy t then
                   match coerceParse t with
                   | some finalData => Except.ok finalData
                   | none => Except.error CallError.jsonParseError
                 else Except.ok (sseFallback parsedSSE)
               | none => Except.ok (sseFallback parsedSSE))
          | _ => Except.ok (sseFallback parsedSSE)
        else Except.ok (sseFallback parsedSSE)
      | none => Except.ok (sseFallback parsedSSE)
    else Except.ok (sseFallback parsedSSE)
  | none => Except.ok (sseFallback parsedSSE)

/-- The body of the `try` at lines 155–178: parse the data line, throw on a
JSON-RPC `error` field, then process `result`. -/
def sseInner (dataLine : String) : Except CallError Json :=
  match jsonParse dataLine with
  | none => Except.error CallError.jsonParseError
  | some parsedSSE =>
    match parsedSSE with
    | Json.null => Except.error CallError.typeError
    | _ =>
      match jsGet parsedSSE ("error") with
      | some errVal =>
        if jsTruthy errVal then Except.error (CallError.remoteToolError errVal)
        else sseResult parsedSSE
      | none => sseResult parsedSSE

/-- Lines 153–182: the whole SSE-data processing block; its `catch` rewraps
ANY error raised inside — including the deliberately thrown JSON-RPC error of
line 160 — as `'Failed to parse SSE response: ...'`. -/
def parseSSEData (dataLine : String) : Except CallError Json :=
  match sseInner dataLine with
  | Except.ok v => Except.ok v
  | Except.error e => Except.error (CallError.sseParseFailure e)

/-- Lines 140–186: the string-body (SSE) branch of `callTool`. -/
def handleTextBody (s : String) : Except CallError Json :=
  let dataLine := findDataLine (splitNl s.data)
  if dataLine = [] then Except.error CallError.noDataLine
  else parseSSEData (String.mk dataLine)

/-- Lines 188–200: the structured-body branch.  `'error' in responseData` is a
presence test; `'in'` on a primitive, and a property read on a `null` error
value, throw `TypeError`. -/
def handleStructuredBody : Json → Except CallError Json
  | Json.obj fields =>
    (match lookupEntryJson fields ("error") with
     | some errVal =>
       (match errVal with
        | Json.null => Except.error CallError.typeError
        | _ => Except.error (CallError.remoteToolError errVal))
     | none =>
       match lookupEntryJson fields ("result") with
       | some r => Except.ok r
       | none => Except.ok (Json.obj fields))
  | Json.arr xs => Except.ok (Json.arr xs)
  | Json.str s => handleTextBody s
  | _ => Except.error CallError.typeError

/-- Response classification: `typeof response.data === 'string'` selects the
SSE branch, everything else the structured branch. -/
def callToolHandle : ResponseData → Except CallError Json
  | ResponseData.text s => handleTextBody s
  | ResponseData.structured j => handleStructuredBody j

/-- `FastMCPClient.callTool` end to end: the auth gate of lines 110–112, then
the response handling; the response to the (external) HTTP POST is the
`resp` argument.  The outer catch (lines 202–231) re-throws non-axios errors
with a `'Failed to call tool'` prefix, preserving the embedded content, and is
modelled as the identity on the error value. -/
def callTool (st : AuthState) (now : Int) (promptResult : Option String)
    (resp : ResponseData) : Except CallError (AuthState × Json) :=
  match callToolEnsureAuth st now promptResult with
  | Except.error e => Except.error e
  | Except.ok st' =>
    match callToolHandle resp with
    | Except.error e => Except.error e
    | Except.ok j => Except.ok (st', j)

/-! ## `search` (lines 262–326) and `testConnection` (lines 234–260) -/

/-- Lines 277–302: the branch chain filling the local `results` variable.
The variable is untyped at runtime: branch 2 assigns whatever truthy value
`result.data.results` holds, array or not. -/
def searchCandidate (result : Json) : Json :=
  if jsTruthy result && isObjectType result then
    if truthyOpt (jsGet result ("results")) && isArrOpt (jsGet result ("results")) then
      (jsGet result ("results")).getD (Json.arr [])
    else
      match jsGet result ("data") with
      | some d =>
        if jsTruthy d then
          match jsGet d ("results") with
          | some dr =>
            if jsTruthy dr then dr
            else if isArrJson result then result
            else if truthyOpt (jsGet result ("content")) then Json.arr [result]
            else Json.arr []
          | none =>
            if isArrJson result then result
            else if truthyOpt (jsGet result ("content")) then Json.arr [result]
            else Json.arr []
        else if isArrJson result then result
        else if truthyOpt (jsGet result ("content")) then Json.arr [result]
        else Json.arr []
      | none =>
        if isArrJson result then result
        else if truthyOpt (jsGet result ("content")) then Json.arr [result]
        else Json.arr []
  else Json.arr []

/-- Lines 308–321: `if (results.length > 0) { return results } else { return [] }`
(`.length` of a non-array, non-string value is `undefined`, and
`undefined > 0` is false). -/
def searchLengthGate (results : Json) : Json :=
  match jsLength results with
  | some n => if 0 < n then results else Json.arr []
  | none => Json.arr []

/-- The result-extraction stage of `search`: lines 275–321 applied to the
payload `callTool` resolved. -/
def searchExtract (result : Json) : Json :=
  searchLengthGate (searchCandidate result)

/-- `search` end to end for a given server response: `callTool` resolves the
payload, then the extraction stage runs; errors propagate unchanged
(lines 322–325 re-throw). -/
def searchPipeline (resp : ResponseData) : Except CallError Json :=
  match callToolHandle resp with
  | Except.error e => Except.error e
  | Except.ok payload => Except.ok (searchExtract payload)

/-- `FastMCPClient.testConnection`: the trial search's outcome and the root
GET's outcome enter as arguments.  Lines 240–246 return `true` on BOTH sides
of the `if (testResult)` test. -/
def testConnection (searchOutcome : Except CallError Json)
    (pingOutcome : Except Unit Nat) : Bool :=
  match searchOutcome with
  | Except.ok testResult => if jsTruthy testResult then true else true
  | Except.error _ =>
    match pingOutcome with
    | Except.ok _ => true
    | Except.error _ => false

/-! ## Spec-side definitions for the extraction-precedence claim

Two result-extraction functions written from the specification's words, to be
compared with `searchExtract` (which is the source's). -/

/-- Extraction precedence as the specification literally words it: a top-level
`results` ARRAY; else a nested `data.results` ARRAY; else an array payload
itself; else, if the payload HAS a `content` field (mere presence), the whole
payload as a one-element sequence; else empty. -/
def searchExtractClaimed (payload : Json) : Json :=
  match jsGet payload ("results") with
  | some (Json.arr rs) => Json.arr rs
  | _ =>
    match (jsGet payload ("data")).bind (fun d => jsGet d ("results")) with
    | some (Json.arr rs) => Json.arr rs
    | _ =>
      match payload with
      | Json.arr xs => Json.arr xs
      | Json.obj fields =>
        (match lookupEntryJson fields ("content") with
         | some _ => Json.arr [Json.obj fields]
         | none => Json.arr [])
      | _ => Json.arr []

/-- Extraction precedence as amended to match the code: (1) a top-level
truthy `results` value that is an array is returned as-is; (2) else, when
`data` is truthy and `data.results` is truthy, that value is taken without an
array check and survives only if it is an array or string of positive length,
anything else yielding the empty sequence; (3) else an array payload is
returned directly; (4) else a payload whose `content` field is TRUTHY (not
merely present) is wrapped as a one-element sequence; (5) else — including
every null or non-object payload — the empty sequence. -/
def searchExtractAmended (payload : Json) : Json :=
  if !(jsTruthy payload && isObjectType payload) then Json.arr []
  else if truthyOpt (jsGet payload ("results")) && isArrOpt (jsGet payload ("results")) then
    (jsGet payload ("results")).getD (Json.arr [])
  else if truthyOpt (jsGet payload ("data")) &&
      truthyOpt ((jsGet payload ("data")).bind (fun d => jsGet d ("results"))) then
    match ((jsGet payload ("data")).bind (fun d => jsGet d ("results"))).getD Json.null with
    | Json.arr xs => if 0 < xs.length then Json.arr xs else Json.arr []
    | Json.str s => if 0 < s.length then Json.str s else Json.arr []
    | _ => Json.arr []
  else if isArrJson payload then payload
  else if truthyOpt (jsGet payload ("content")) then Json.arr [payload]
  else Json.arr []

/-! ## Helper lemmas about storage and the primitive models -/

theorem lookupEntry_setEntry_self (l : List (String × String)) (k v : String) :
    lookupEntry (setEntry l k v) k = some v := by
  induction l with
  | nil => simp [setEntry, lookupEntry]
  | cons p rest ih =>
    obtain ⟨k', v'⟩ := p
    by_cases h : k' = k
    · subst h; simp [setEntry, lookupEntry]
    · simp [setEntry, lookupEntry, h, ih]

theorem lookupEntry_setEntry_ne (l : List (String × String)) (k v k2 : String)
    (h : k2 ≠ k) : lookupEntry (setEntry l k v) k2 = lookupEntry l k2 := by
  induction l with
  | nil => simp [setEntry, lookupEntry, Ne.symm h]
  | cons p rest ih =>
    obtain ⟨k', v'⟩ := p
    by_cases hk : k' = k
    · subst hk; simp [setEntry, lookupEntry, Ne.symm h]
    · simp [setEntry, lookupEntry, hk, ih]

theorem lookupEntry_removeEntry_self (l : List (String × String)) (k : String) :
    lookupEntry (removeEntry l k) k = none := by
  induction l with
  | nil => simp [removeEntry, lookupEntry]
  | cons p rest ih =>
    obtain ⟨k', v'⟩ := p
    by_cases h : k' = k
    · simp [removeEntry, h, ih]
    · simp [removeEntry, lookupEntry, h, ih]

theorem lookupEntry_removeEntry_ne (l : List (String × String)) (k k2 : String)
    (h : k2 ≠ k) : lookupEntry (removeEntry l k) k2 = lookupEntry l k2 := by
  induction l with
  | nil => simp [removeEntry, lookupEntry]
  | cons p rest ih =>
    obtain ⟨k', v'⟩ := p
    by_cases hk : k' = k
    · subst hk
      simp [removeEntry, lookupEntry, ih, Ne.symm h]
    · simp [removeEntry, lookupEntry, hk, ih]

theorem removeEntry_idem (l : List (String × String)) (k : String) :
    removeEntry (removeEntry l k) k = removeEntry l k := by
  induction l with
  | nil => simp [removeEntry]
  | cons p rest ih =>
    obtain ⟨k', v'⟩ := p
    by_cases h : k' = k
    · simp [removeEntry, h, ih]
    · simp [removeEntry, h, ih]

theorem removeEntry_comm (l : List (String × String)) (k1 k2 : String) :
    removeEntry (removeEntry l k1) k2 = removeEntry (removeEntry l k2) k1 := by
  induction l with
  | nil => simp [removeEntry]
  | cons p rest ih =>
    obtain ⟨k', v'⟩ := p
    by_cases h1 : k' = k1
    · subst h1
      by_cases h2 : k' = k2
      · subst h2; simp [removeEntry]
      · simp [removeEntry, h2, ih]
    · by_cases h2 : k' = k2
      · subst h2
        simp [removeEntry, h1, ih]
      · simp [removeEntry, h1, h2, ih]

theorem parseIntJS_ne_empty {s : String} {e : Int} (h : parseIntJS s = some e) :
    s ≠ "" := by
  intro h'
  rw [h'] at h
  exact Option.noConfusion h

theorem searchLengthGate_arr (xs : List Json) :
    searchLengthGate (Json.arr xs) = Json.arr xs := by
  cases xs with
  | nil => simp [searchLengthGate, jsLength]
  | cons a l =>
    simp only [searchLengthGate, jsLength]
    rw [if_pos]
    exact_mod_cast Nat.succ_pos l.length

/-- Branch 1 of the extraction: a top-level `results` array is returned
verbatim, order and length preserved. -/
theorem searchExtract_results_helper (fields : List (String × Json)) (rs : List Json)
    (h : lookupEntryJson fields ("results") = some (Json.arr rs)) :
    searchExtract (Json.obj fields) = Json.arr rs := by
  unfold searchExtract searchCandidate
  simp only [jsTruthy, isObjectType, Bool.and_self, if_true, jsGet, h, truthyOpt,
    isArrOpt, isArrJson, Bool.and_true, Option.getD_some, if_true]
  exact searchLengthGate_arr rs

theorem removeEntry_four (E : List (String × String)) (t x : String) :
    removeEntry (removeEntry (removeEntry (removeEntry E t) x) t) x =
      removeEntry (removeEntry E t) x := by
  rw [removeEntry_comm (removeEntry E t) x t, removeEntry_idem, removeEntry_idem]

/-- C8: `clearAuth` is idempotent — a second call leaves the same state as one
call, neither raises (the function is total), both persisted entries are
absent afterwards, and the in-memory credential is null, with no assumption
that any credential was active. -/
theorem claim8_clearAuth_idempotent (st : AuthState) :
    clearAuth (clearAuth st) = clearAuth st ∧
    (clearAuth st).storage.getItem ("fastmcp_access_token") = none ∧
    (clearAuth st).storage.getItem ("fastmcp_token_expiry") = none ∧
    (clearAuth st).accessToken = none := by
  refine ⟨?_, ?_, ?_, rfl⟩
  · unfold clearAuth Storage.removeItem
    simp only [AuthState.mk.injEq, Storage.mk.injEq, true_and]
    exact removeEntry_four st.storage.entries _ _
  · unfold clearAuth Storage.removeItem Storage.getItem
    simp only
    rw [lookupEntry_removeEntry_ne _ _ _ (by decide),
      lookupEntry_removeEntry_self]
  · unfold clearAuth Storage.removeItem Storage.getItem
    simp only
    rw [lookupEntry_removeEntry_self]

/-- C6: `testConnection` is a total boolean function of the two outcomes (it
never raises); it returns `true` whenever the trial search succeeds — even
when the result is empty or falsy — and returns `false` exactly when the
trial search fails AND the root GET also fails. -/
theorem claim6_testConnection (s : Except CallError Json) (p : Except Unit Nat) :
    (testConnection s p = false ↔
      ((∃ e, s = Except.error e) ∧ (∃ u, p = Except.error u))) ∧
    (∀ v, s = Except.ok v → testConnection s p = true) := by
  constructor
  · cases s <;> cases p <;> simp [testConnection]
  · intro v h
    subst h
    simp [testConnection]

theorem claim6_witness :
    testConnection (Except.error CallError.noDataLine) (Except.error ()) = false ∧
    testConnection (Except.ok (Json.arr [])) (Except.error ()) = true := by
  constructor
  · exact (claim6_testConnection _ _).1.mpr ⟨⟨_, rfl⟩, ⟨_, rfl⟩⟩
  · exact (claim6_testConnection _ _).2 (Json.arr []) rfl

/-- C10: for a resolved payload that is null or not an object (a number, a
string, a boolean), the extraction stage of `search` does not fail — it is a
total function — and returns the empty result sequence. -/
theorem claim10_non_object_payload (j : Json)
    (h : j = Json.null ∨ isObjectType j = false) :
    searchExtract j = Json.arr [] := by
  cases j with
  | null => rfl
  | bool b => simp [searchExtract, searchCandidate, isObjectType, searchLengthGate, jsLength]
  | num n => simp [searchExtract, searchCandidate, isObjectType, searchLengthGate, jsLength]
  | str s => simp [searchExtract, searchCandidate, isObjectType, searchLengthGate, jsLength]
  | arr xs =>
    rcases h with h | h
    · exact Json.noConfusion h
    · exact Bool.noConfusion h
  | obj fields =>
    rcases h with h | h
    · exact Json.noConfusion h
    · exact Bool.noConfusion h

theorem claim10_witness : searchExtract (Json.num 5) = Json.arr [] :=
  claim10_non_object_payload (Json.num 5) (Or.inr rfl)

/-- C2 (evaluation at the failing input): a structured body carrying
`{error: {code: 7, message: "bad"}}` does fail with the remote-error kind
carrying that envelope, but the SAME envelope delivered on an SSE `data:`
line fails with the `'Failed to parse SSE response'` wrapper — the
`catch (parseError)` of lines 179–182 captures the JSON-RPC error thrown at
line 160 — which the spec's taxonomy classifies as `MalformedResponse`, not
`RemoteToolError`. -/
theorem claim2_sse_error_mishandled :
    callToolHandle (ResponseData.structured
        (Json.obj [("error", Json.obj [("code", Json.num 7), ("message", Json.str ("bad"))])])) =
      Except.error (CallError.remoteToolError
        (Json.obj [("code", Json.num 7), ("message", Json.str ("bad"))])) ∧
    callToolHandle (ResponseData.text ("data: \x7b\"error\":\x7b\"code\":7,\"message\":\"bad\"\x7d\x7d")) =
      Except.error (CallError.sseParseFailure (CallError.remoteToolError
        (Json.obj [("code", Json.num 7), ("message", Json.str ("bad"))]))) := by
  exact ⟨rfl, rfl⟩

theorem findDataLine_of_all_none (lines : List (List Char))
    (h : ∀ l ∈ lines, dataLineOf l = none) : findDataLine lines = [] := by
  induction lines with
  | nil => rfl
  | cons l rest ih =>
    have hl := h l (List.mem_cons_self l rest)
    simp only [findDataLine, hl]
    exact ih (fun l' hl' => h l' (List.mem_cons_of_mem _ hl'))

/-- C5: a string response body with no line prefixed `data: ` makes `callTool`
fail with the `'No data line found in SSE response'` error — the spec's
`MalformedResponse` — and the scan only ever uses the first `data: `-prefixed
line: lines before it do not match, lines after it are ignored. -/
theorem claim5_no_data_line :
    (∀ s : String, (∀ l ∈ splitNl s.data, dataLineOf l = none) →
       handleTextBody s = Except.error CallError.noDataLine) ∧
    (∀ (pre : List (List Char)) (l remainderChars : List Char) (post : List (List Char)),
       (∀ l' ∈ pre, dataLineOf l' = none) → dataLineOf l = some remainderChars →
       findDataLine (pre ++ l :: post) = remainderChars) := by
  constructor
  · intro s h
    unfold handleTextBody
    rw [findDataLine_of_all_none _ h]
    rfl
  · intro pre l remainderChars post hpre hl
    induction pre with
    | nil => simp only [List.nil_append, findDataLine, hl]
    | cons a as ih =>
      have ha := hpre a (List.mem_cons_self a as)
      simp only [List.cons_append, findDataLine, ha]
      exact ih (fun l' hl' => hpre l' (List.mem_cons_of_mem _ hl'))

theorem claim5_witness :
    handleTextBody ("event: x\nfoo") = Except.error CallError.noDataLine ∧
    findDataLine (["ab".data] ++ "data: hi".data :: ["data: later".data]) = "hi".data := by
  constructor
  · exact claim5_no_data_line.1 ("event: x\nfoo") (by decide)
  · exact claim5_no_data_line.2 ["ab".data] ("data: hi".data) ("hi".data)
      ["data: later".data] (by decide) (by decide)

/-- C4: for an SSE text body whose first `data: ` line parses to
`{result: {content: [{text: <string>}]}}` (no error field), the text string
of the first content element is itself JSON-parsed — the double-encoded
case — and becomes the resolved payload; when that payload carries a
`results` array, `search` hands exactly that array to the caller, unchanged. -/
theorem claim4_double_encoded
    (s : String) (dl : List Char) (pf : List (String × Json))
    (res : Json) (ff : List (String × Json)) (contRest : List Json)
    (tstr : String) (payload : Json) (rs : List Json)
    (h0 : findDataLine (splitNl s.data) = dl)
    (h1 : dl ≠ [])
    (h2 : jsonParse (String.mk dl) = some (Json.obj pf))
    (h3 : truthyOpt (lookupEntryJson pf ("error")) = false)
    (h4 : lookupEntryJson pf ("result") = some res)
    (h5 : jsTruthy res = true)
    (h6 : jsGet res ("content") = some (Json.arr (Json.obj ff :: contRest)))
    (h7 : lookupEntryJson ff ("text") = some (Json.str tstr))
    (h8 : tstr ≠ "")
    (h9 : jsonParse tstr = some payload)
    (h10 : jsGet payload ("results") = some (Json.arr rs)) :
    handleTextBody s = Except.ok payload ∧ searchExtract payload = Json.arr rs := by
  have hts : jsTruthy (Json.str tstr) = true := by
    simp [jsTruthy, h8]
  have g1 : jsGet (Json.obj pf) ("result") = some res := by
    simp [jsGet, h4]
  have g2 : jsGet (Json.obj ff) ("text") = some (Json.str tstr) := by
    simp [jsGet, h7]
  have g3 : jsTruthy (Json.arr (Json.obj ff :: contRest)) = true := rfl
  have hres : sseResult (Json.obj pf) = Except.ok payload := by
    unfold sseResult
    simp only [g1, h5, if_true]
    simp only [h6, g3, if_true]
    simp only [g2, hts, if_true]
    simp only [coerceParse, h9]
  have hinner : sseInner (String.mk dl) = Except.ok payload := by
    unfold sseInner
    rw [h2]
    rcases hE : lookupEntryJson pf ("error") with _ | errVal
    · simp [jsGet, hE, hres]
    · rw [hE] at h3
      simp only [truthyOpt] at h3
      simp [jsGet, hE, h3, hres]
  constructor
  · unfold handleTextBody
    rw [h0, if_neg h1]
    unfold parseSSEData
    rw [hinner]
  · cases payload with
    | obj fl => exact searchExtract_results_helper fl rs h10
    | null => exact Option.noConfusion h10
    | bool b => exact Option.noConfusion h10
    | num n => exact Option.noConfusion h10
    | str s2 => exact Option.noConfusion h10
    | arr xs => exact Option.noConfusion h10

theorem claim4_witness :
    handleTextBody
        ("event: message\ndata: \x7b\"result\":\x7b\"content\":[\x7b\"text\":\"\x7b\\\"results\\\":[1,2]\x7d\"\x7d]\x7d\x7d\n") =
      Except.ok (Json.obj [("results", Json.arr [Json.num 1, Json.num 2])]) ∧
    searchExtract (Json.obj [("results", Json.arr [Json.num 1, Json.num 2])]) =
      Json.arr [Json.num 1, Json.num 2] :=
  claim4_double_encoded
    ("event: message\ndata: \x7b\"result\":\x7b\"content\":[\x7b\"text\":\"\x7b\\\"results\\\":[1,2]\x7d\"\x7d]\x7d\x7d\n")
    (String.data ("\x7b\"result\":\x7b\"content\":[\x7b\"text\":\"\x7b\\\"results\\\":[1,2]\x7d\"\x7d]\x7d\x7d"))
    [("result", Json.obj [("content",
        Json.arr [Json.obj [("text", Json.str ("\x7b\"results\":[1,2]\x7d"))]])])]
    (Json.obj [("content",
        Json.arr [Json.obj [("text", Json.str ("\x7b\"results\":[1,2]\x7d"))]])])
    [("text", Json.str ("\x7b\"results\":[1,2]\x7d"))]
    []
    ("\x7b\"results\":[1,2]\x7d")
    (Json.obj [("results", Json.arr [Json.num 1, Json.num 2])])
    [Json.num 1, Json.num 2]
    rfl (by decide) rfl rfl rfl rfl rfl rfl (by decide) rfl rfl

theorem truthyOpt_some (v : Json) : truthyOpt (some v) = jsTruthy v := rfl

theorem truthyOpt_none : truthyOpt none = false := rfl

theorem isArrOpt_some (v : Json) : isArrOpt (some v) = isArrJson v := rfl

theorem jsTruthy_obj (fields : List (String × Json)) : jsTruthy (Json.obj fields) = true := rfl

theorem jsTruthy_arr (xs : List Json) : jsTruthy (Json.arr xs) = true := rfl

theorem isObjectType_obj (fields : List (String × Json)) :
    isObjectType (Json.obj fields) = true := rfl

theorem jsGet_obj (fields : List (String × Json)) (k : String) :
    jsGet (Json.obj fields) k = lookupEntryJson fields k := rfl

theorem isArrJson_obj (fields : List (String × Json)) :
    isArrJson (Json.obj fields) = false := rfl

/-- C3 counterexample: the payload `{content: ""}` HAS a `content` field, so
the claimed precedence yields the one-element sequence, but the code tests
the field for truthiness — `""` is falsy — and returns the empty sequence. -/
theorem claim3_counterexample :
    searchExtractClaimed (Json.obj [("content", Json.str (""))]) =
      Json.arr [Json.obj [("content", Json.str (""))]] ∧
    searchExtract (Json.obj [("content", Json.str (""))]) = Json.arr [] ∧
    Json.arr [Json.obj [("content", Json.str (""))]] ≠ Json.arr [] := by
  refine ⟨rfl, rfl, ?_⟩
  intro h
  simp at h

/-- C3 (amended): result extraction equals the amended precedence — a truthy
`results` array; else a truthy `data` with truthy `data.results` taken
without an array check and surviving only with positive length; else an array
payload itself; else a payload with a TRUTHY `content` field as a one-element
sequence; else empty — and in particular a structured response with a
`result.results` array of length N reaches the caller as exactly those N
records, order preserved. -/
theorem claim3_extraction_amended :
    (∀ payload : Json, searchExtract payload = searchExtractAmended payload) ∧
    (∀ (fields : List (String × Json)) (rs : List Json),
       lookupEntryJson fields ("results") = some (Json.arr rs) →
       searchPipeline (ResponseData.structured (Json.obj [("result", Json.obj fields)])) =
         Except.ok (Json.arr rs)) := by
  constructor
  · intro payload
    cases payload with
    | null => rfl
    | bool b => cases b <;> rfl
    | num n =>
      simp [searchExtract, searchCandidate, searchExtractAmended, isObjectType,
        searchLengthGate, jsLength, jsTruthy]
    | str s =>
      simp [searchExtract, searchCandidate, searchExtractAmended, isObjectType,
        searchLengthGate, jsLength, jsTruthy]
    | arr xs =>
      simp [searchExtract, searchCandidate, searchExtractAmended, isObjectType,
        jsGet, truthyOpt, isArrJson, searchLengthGate_arr, jsTruthy, lookupEntryJson]
    | obj fields =>
      by_cases h1 : (truthyOpt (lookupEntryJson fields ("results")) &&
          isArrOpt (lookupEntryJson fields ("results"))) = true
      · rcases hr : lookupEntryJson fields ("results") with _ | rv
        · rw [hr] at h1
          simp [truthyOpt_none] at h1
        · cases rv with
          | arr xs =>
            unfold searchExtract searchCandidate searchExtractAmended
            simp [jsGet_obj, hr, truthyOpt_some, isArrOpt_some, isArrJson, jsTruthy_obj,
              jsTruthy_arr, isObjectType_obj, searchLengthGate_arr]
          | null => rw [hr] at h1; simp [truthyOpt_some, jsTruthy] at h1
          | bool b => rw [hr] at h1; simp [truthyOpt_some, isArrOpt_some, isArrJson] at h1
          | num n => rw [hr] at h1; simp [truthyOpt_some, isArrOpt_some, isArrJson] at h1
          | str s => rw [hr] at h1; simp [truthyOpt_some, isArrOpt_some, isArrJson] at h1
          | obj f2 => rw [hr] at h1; simp [truthyOpt_some, isArrOpt_some, isArrJson] at h1
      · have h1' : (truthyOpt (lookupEntryJson fields ("results")) &&
            isArrOpt (lookupEntryJson fields ("results"))) = false := by
          simpa using h1
        unfold searchExtract searchCandidate searchExtractAmended
        simp only [jsTruthy_obj, isObjectType_obj, Bool.and_self, Bool.not_true, if_true,
          if_false, jsGet_obj, h1', Bool.false_eq_true, isArrJson_obj]
        rcases hd : lookupEntryJson fields ("data") with _ | dval
        · simp only [truthyOpt_none, Bool.false_and, Bool.false_eq_true, if_false]
          by_cases hc : truthyOpt (lookupEntryJson fields ("content")) = true <;>
            simp [hc, searchLengthGate_arr, searchLengthGate, jsLength]
        · by_cases ht : jsTruthy dval = true
          · rcases hdr : jsGet dval ("results") with _ | dr
            · simp only [ht, if_true, hdr, truthyOpt_some, truthyOpt_none, Option.some_bind,
                Bool.and_false, Bool.false_eq_true, if_false]
              by_cases hc : truthyOpt (lookupEntryJson fields ("content")) = true <;>
                simp [hc, searchLengthGate_arr, searchLengthGate, jsLength]
            · by_cases htr : jsTruthy dr = true
              · simp only [ht, if_true, hdr, truthyOpt_some, Option.some_bind, htr,
                  Bool.and_self, Option.getD_some]
                cases dr with
                | arr xs => simp [searchLengthGate, jsLength, Int.natCast_pos]
                | str s => simp [searchLengthGate, jsLength, Int.natCast_pos]
                | null => simp [jsTruthy] at htr
                | bool b => simp [searchLengthGate, jsLength]
                | num n => simp [searchLengthGate, jsLength]
                | obj f2 => simp [searchLengthGate, jsLength]
              · have htr' : jsTruthy dr = false := by simpa using htr
                simp only [ht, if_true, hdr, truthyOpt_some, Option.some_bind, htr',
                  Bool.and_false, Bool.false_eq_true, if_false]
                by_cases hc : truthyOpt (lookupEntryJson fields ("content")) = true <;>
                  simp [hc, searchLengthGate_arr, searchLengthGate, jsLength]
          · have ht' : jsTruthy dval = false := by simpa using ht
            simp only [ht', if_false, truthyOpt_some, Bool.false_and, Bool.false_eq_true]
            by_cases hc : truthyOpt (lookupEntryJson fields ("content")) = true <;>
              simp [hc, searchLengthGate_arr, searchLengthGate, jsLength]
  · intro fields rs h
    have hb : callToolHandle (ResponseData.structured
        (Json.obj [("result", Json.obj fields)])) = Except.ok (Json.obj fields) := rfl
    unfold searchPipeline
    simp only [hb]
    exact congrArg Except.ok (searchExtract_results_helper fields rs h)

theorem claim3_witness :
    searchPipeline (ResponseData.structured
        (Json.obj [("result", Json.obj [("results", Json.arr [Json.num 1, Json.num 2])])])) =
      Except.ok (Json.arr [Json.num 1, Json.num 2]) :=
  claim3_extraction_amended.2 [("results", Json.arr [Json.num 1, Json.num 2])]
    [Json.num 1, Json.num 2] rfl

/-- A client state holding an in-memory token `"old"` whose persisted expiry
(5 ms since epoch) is already past at the probe time `now = 10`. -/
def staleHeldState : AuthState :=
  ⟨some ("old"), ⟨[("fastmcp_access_token", "old"), ("fastmcp_token_expiry", "5")]⟩⟩

/-- C1 counterexample: at `staleHeldState` the held credential's persisted
expiry (5) is in the past at `now = 10`, yet the auth gate of `callTool`
attempts no re-acquisition: it proceeds with the stale token and the state
unchanged, while actually running `initializeAuth` (the claimed storage
check / interactive prompt) would have replaced the token with the freshly
prompted one. -/
theorem claim1_counterexample :
    truthyStrOpt staleHeldState.accessToken = true ∧
    (staleHeldState.storage.getItem ("fastmcp_token_expiry")).bind parseIntJS =
      some 5 ∧
    (5 : Int) ≤ 10 ∧
    callToolEnsureAuth staleHeldState 10 (some ("new")) = Except.ok staleHeldState ∧
    initializeAuth staleHeldState 10 (some ("new")) ≠ Except.ok staleHeldState := by
  refine ⟨rfl, rfl, by decide, rfl, ?_⟩
  intro h
  have e1 : initializeAuth staleHeldState 10 (some ("new")) =
      Except.ok (⟨some ("new"),
        ⟨[("fastmcp_access_token", "new"), ("fastmcp_token_expiry", "3600010")]⟩⟩ :
          AuthState) := rfl
  rw [e1] at h
  injection h with h2
  exact absurd h2 (by decide)

/-- C1 (amended): the auth gate of `callTool` re-acquires exactly when no
in-memory credential is held.  With a held (truthy) token the call proceeds
with it unchanged — the prompt is never shown and the persisted expiry is
never consulted, even when it is past; with no held token, `initializeAuth`
(storage check, then interactive prompt) runs first, before the response is
processed. -/
theorem claim1_amended_no_reacquire :
    (∀ (st : AuthState) (now : Int) (p : Option String) (resp : ResponseData),
       truthyStrOpt st.accessToken = true →
       callTool st now p resp =
         match callToolHandle resp with
         | Except.ok j => Except.ok (st, j)
         | Except.error e => Except.error e) ∧
    (∀ (st : AuthState) (now : Int) (p : Option String) (resp : ResponseData),
       truthyStrOpt st.accessToken = false →
       callTool st now p resp =
         match initializeAuth st now p with
         | Except.error e => Except.error e
         | Except.ok st' =>
           match callToolHandle resp with
           | Except.ok j => Except.ok (st', j)
           | Except.error e => Except.error e) := by
  constructor
  · intro st now p resp h
    simp only [callTool, callToolEnsureAuth, h, if_true]
    rcases h2 : callToolHandle resp with e | j <;> simp [h2]
  · intro st now p resp h
    simp only [callTool, callToolEnsureAuth, h, Bool.false_eq_true, if_false]
    rcases h1 : initializeAuth st now p with e | st' <;> simp [h1]
    rcases h2 : callToolHandle resp with e | j <;> simp [h2]

theorem claim1_witness :
    callTool staleHeldState 10 (some ("new")) (ResponseData.structured (Json.obj [])) =
      Except.ok (staleHeldState, Json.obj []) :=
  (claim1_amended_no_reacquire.1 staleHeldState 10 (some ("new"))
      (ResponseData.structured (Json.obj [])) rfl).trans rfl

theorem authFastPath_intro (st : AuthState) (now : Int) (tok s : String) (e : Int)
    (htok : st.storage.getItem ("fastmcp_access_token") = some tok)
    (htokne : tok ≠ "")
    (hexps : st.storage.getItem ("fastmcp_token_expiry") = some s)
    (hparse : parseIntJS s = some e)
    (hlt : now < e) : authFastPath st now = true := by
  unfold authFastPath
  rw [htok, hexps]
  simp [truthyStrOpt, bne_iff_ne, htokne, parseIntJS_ne_empty hparse, hparse, hlt]

theorem initializeAuth_self (st : AuthState) (now : Int) (p : Option String)
    (hfp : authFastPath st now = true)
    (hacc : st.storage.getItem ("fastmcp_access_token") = st.accessToken) :
    initializeAuth st now p = Except.ok st := by
  simp only [initializeAuth, hfp, if_true, hacc]

/-- C7: after a successful `acquire` (`initializeAuth`), a second call made
while the persisted expiry is still in the future re-prompts nothing — its
result is the same state, whatever the prompt would have answered — and when
the first call went through the interactive prompt (the fast path was
closed), it persisted the trimmed token together with an expiry of exactly
one hour (3 600 000 ms) from acquisition. -/
theorem claim7_acquire_twice
    (st0 st1 : AuthState) (now1 now2 : Int) (p1 : Option String) (e : Int)
    (hfirst : initializeAuth st0 now1 p1 = Except.ok st1)
    (hexp : (st1.storage.getItem ("fastmcp_token_expiry")).bind parseIntJS = some e)
    (hwin : now2 < e) :
    (∀ p2 : Option String, initializeAuth st1 now2 p2 = Except.ok st1) ∧
    (authFastPath st0 now1 = false →
      ∃ u, p1 = some u ∧ trimJS u ≠ "" ∧
        st1.accessToken = some (trimJS u) ∧
        st1.storage.getItem ("fastmcp_access_token") = some (trimJS u) ∧
        st1.storage.getItem ("fastmcp_token_expiry") =
          some (intToString (now1 + 3600000))) := by
  by_cases hf : authFastPath st0 now1 = true
  · have hst : st1 = { st0 with accessToken :=
        (st0.storage.getItem ("fastmcp_access_token")) } := by
      simp only [initializeAuth, hf, if_true] at hfirst
      exact (Except.ok.inj hfirst).symm
    subst hst
    have hf' := hf
    unfold authFastPath at hf'
    simp only [Bool.and_eq_true] at hf'
    obtain ⟨⟨ht1, ht2⟩, ht3⟩ := hf'
    constructor
    · intro p2
      rcases h4 : st0.storage.getItem ("fastmcp_access_token") with _ | tok
      · rw [h4] at ht1
        simp [truthyStrOpt] at ht1
      · have htokne : tok ≠ "" := by
          rw [h4] at ht1
          simpa [truthyStrOpt, bne_iff_ne] using ht1
        rcases Option.bind_eq_some.mp hexp with ⟨s, hs, hparse⟩
        apply initializeAuth_self
        · exact authFastPath_intro _ now2 tok s e (by simpa using h4) htokne
            (by simpa using hs) hparse hwin
        · simp [h4]
    · intro hff
      rw [hf] at hff
      exact Bool.noConfusion hff
  · have hf0 : authFastPath st0 now1 = false := by simpa using hf
    cases p1 with
    | none =>
      simp only [initializeAuth, hf0, Bool.false_eq_true, if_false] at hfirst
      exact Except.noConfusion hfirst
    | some u =>
      by_cases hu : trimJS u = ""
      · have : (Except.error CallError.authRequired :
            Except CallError AuthState) = Except.ok st1 := by
          rw [← hfirst]
          simp only [initializeAuth, hf0, Bool.false_eq_true, if_false]
          rw [if_pos hu]
        exact Except.noConfusion this
      · have hfirst' : st1 = { accessToken := some (trimJS u), storage :=
            ((st0.storage.setItem ("fastmcp_access_token") (trimJS u)).setItem
              ("fastmcp_token_expiry") (intToString (now1 + 3600000))) } := by
          have h5 : (Except.ok ({ accessToken := some (trimJS u), storage :=
              ((st0.storage.setItem ("fastmcp_access_token") (trimJS u)).setItem
                ("fastmcp_token_expiry") (intToString (now1 + 3600000))) } : AuthState) :
                Except CallError AuthState) =
              Except.ok st1 := by
            rw [← hfirst]
            simp only [initializeAuth, hf0, Bool.false_eq_true, if_false]
            rw [if_neg hu]
          exact (Except.ok.inj h5).symm
        subst hfirst'
        have htk : ((st0.storage.setItem ("fastmcp_access_token") (trimJS u)).setItem
            ("fastmcp_token_expiry") (intToString (now1 + 3600000))).getItem
              ("fastmcp_access_token") = some (trimJS u) := by
          unfold Storage.getItem Storage.setItem
          rw [lookupEntry_setEntry_ne _ _ _ _ (by decide), lookupEntry_setEntry_self]
        have hte : ((st0.storage.setItem ("fastmcp_access_token") (trimJS u)).setItem
            ("fastmcp_token_expiry") (intToString (now1 + 3600000))).getItem
              ("fastmcp_token_expiry") = some (intToString (now1 + 3600000)) := by
          unfold Storage.getItem Storage.setItem
          rw [lookupEntry_setEntry_self]
        constructor
        · intro p2
          rcases Option.bind_eq_some.mp hexp with ⟨s, hs, hparse⟩
          apply initializeAuth_self
          · exact authFastPath_intro _ now2 (trimJS u) s e htk hu
              (by simpa using hs) hparse hwin
          · exact htk
        · intro _
          exact ⟨u, rfl, hu, rfl, htk, hte⟩

theorem claim7_witness :
    initializeAuth (⟨some ("tok"),
        ⟨[("fastmcp_access_token", "tok"), ("fastmcp_token_expiry", "3600000")]⟩⟩ : AuthState)
      5 (some ("other")) =
    Except.ok (⟨some ("tok"),
        ⟨[("fastmcp_access_token", "tok"), ("fastmcp_token_expiry", "3600000")]⟩⟩ : AuthState) :=
  (claim7_acquire_twice ⟨none, ⟨[]⟩⟩
      ⟨some ("tok"), ⟨[("fastmcp_access_token", "tok"), ("fastmcp_token_expiry", "3600000")]⟩⟩
      0 5 (some ("tok")) 3600000 rfl rfl (by decide)).1 (some ("other"))

/-- C9: `close` resets only the in-memory credential — both persisted storage
entries are untouched — so a subsequent `acquire` while the persisted expiry
is still in the future returns the previously persisted token via the
storage fast path, for any prompt answer (no re-prompt). -/
theorem claim9_close_frame (st : AuthState) (now : Int) (p : Option String)
    (t s : String) (e : Int)
    (htok : st.storage.getItem ("fastmcp_access_token") = some t)
    (ht : t ≠ "")
    (hexps : st.storage.getItem ("fastmcp_token_expiry") = some s)
    (hparse : parseIntJS s = some e)
    (hwin : now < e) :
    (close st).accessToken = none ∧
    (close st).storage = st.storage ∧
    initializeAuth (close st) now p = Except.ok ⟨some t, st.storage⟩ := by
  obtain ⟨acc, stor⟩ := st
  refine ⟨rfl, rfl, ?_⟩
  have htok' : stor.getItem ("fastmcp_access_token") = some t := htok
  have hfp : authFastPath (close ⟨acc, stor⟩) now = true :=
    authFastPath_intro _ now t s e htok ht hexps hparse hwin
  simp only [initializeAuth, hfp, if_true]
  show Except.ok (⟨stor.getItem ("fastmcp_access_token"), stor⟩ : AuthState) =
    Except.ok (⟨some t, stor⟩ : AuthState)
  rw [htok']

theorem claim9_witness :
    initializeAuth (close (⟨some ("t"),
        ⟨[("fastmcp_access_token", "t"), ("fastmcp_token_expiry", "99")]⟩⟩ : AuthState))
      5 none =
    Except.ok (⟨some ("t"),
        ⟨[("fastmcp_access_token", "t"), ("fastmcp_token_expiry", "99")]⟩⟩ : AuthState) :=
  (claim9_close_frame
      ⟨some ("t"), ⟨[("fastmcp_access_token", "t"), ("fastmcp_token_expiry", "99")]⟩⟩
      5 none ("t") ("99") 99 rfl (by decide) rfl rfl (by decide)).2.2
